import Mathlib

/-!
Verification of the core Gymnasium adapter of the `balatro-ai` repository
(`pylatro_ai/balatro_env.py`, class `BalatroEnv`) against its design
specification.

The adapter is embedded shallowly: the engine collaborator is not modelled;
each call to `BalatroEnv.step` consumes the engine's `StepResult` (and the
outcome of the optional `game_state()` snapshot query) as explicit inputs.
Python ints become `Int`/`Nat`; the reward floats become exact rationals
(`ℚ`), with the source's float literals carried over as the corresponding
rational constants; the Python `info` dicts become ordered key/value lists so
that presence and absence of keys is observable.
-/

namespace BalatroAI

/-- The six game phases known to the adapter
(`balatro_env.py` line 108: `phases = [...]`). -/
inductive Phase where
  | Shop
  | ShopPackSelection
  | BlindSelect
  | Playing
  | RoundEnd
  | GameOver
  deriving DecidableEq, Repr

/-- The phase field of an engine `StepResult` as the adapter sees it:
either absent (`None`/falsy in Python), one of the six known phase names,
or some other string (`unknown s` stands for a phase name outside the six
known ones; comparisons of such a name with any of the six are false). -/
inductive EnginePhase where
  | noPhase
  | known (p : Phase)
  | unknown (s : String)
  deriving DecidableEq, Repr

/-- Engine step status (`StepResult.status`). -/
inductive Status where
  | NeedsInput
  | Progressed
  | Finished
  deriving DecidableEq, Repr

/-- A `StepResult` produced by the engine collaborator.  `actions` holds the
action indices, i.e. the first component of each tuple in the Python
`step_result.actions` list (the adapter only ever reads `action[0]` /
`action_tuple[0]`).  `finished` is the optional outcome object, recorded
only so that the `info` dict can carry it. -/
structure StepResult where
  status : Status
  phase : EnginePhase
  actions : List Nat
  finished : Option Bool
  deriving DecidableEq, Repr

/-- The result of `BalatroEnv._try_get_score_money` together with the
engine `StepResult` for one `engine.step` call: `snapshot = none` models the
`(None, None)` fallback when `game_state()` is unavailable or raises. -/
structure EngineOut where
  result : StepResult
  snapshot : Option (Int × Int)
  deriving DecidableEq, Repr

/-- The mutable tracking state of a `BalatroEnv` instance
(`balatro_env.py` lines 86–96).  `blind_score_at_start` /
`blind_money_at_start` do not exist as attributes until the first entry
into the Playing phase; they are carried here as fields (initially 0) and,
as in the source, are never cleared by `_reset_engine`. -/
structure TrackedState where
  initial_score : Int
  initial_money : Int
  current_score : Int
  current_money : Int
  step_count : Nat
  blind_started : Bool
  blind_finished : Bool
  prev_phase : EnginePhase
  previous_score : Int
  previous_money : Int
  blind_score_at_start : Int
  blind_money_at_start : Int
  last_valid_actions : List Nat
  deriving DecidableEq, Repr

/-- The tracking state as set up by `BalatroEnv.__init__`
(lines 86–96: everything zero / false / empty, `prev_phase = None`). -/
def initState : TrackedState :=
  { initial_score := 0
    initial_money := 0
    current_score := 0
    current_money := 0
    step_count := 0
    blind_started := false
    blind_finished := false
    prev_phase := .noPhase
    previous_score := 0
    previous_money := 0
    blind_score_at_start := 0
    blind_money_at_start := 0
    last_valid_actions := [] }

/-- Environment configuration relevant to the claims (`max_episode_steps`,
default 1000). -/
structure EnvConfig where
  max_episode_steps : Nat
  deriving DecidableEq, Repr

/-- Constant `BLIND_COMPLETION_BASE_REWARD = 1000.0` (line 14). -/
def BLIND_COMPLETION_BASE_REWARD : ℚ := 1000

/-- Constant `STEP_REWARD = -0.01` (line 15). -/
def STEP_REWARD : ℚ := -1/100

/-- Mapping `phase_to_idx` (line 121): index of each known phase in the `phases`
list. -/
def phase_to_idx : Phase → Nat
  | .Shop => 0
  | .ShopPackSelection => 1
  | .BlindSelect => 2
  | .Playing => 3
  | .RoundEnd => 4
  | .GameOver => 5

/-- Lines 193–195 of `_extract_observation`: `phase_idx = 0;
if step_result.phase: phase_idx = self.phase_to_idx.get(step_result.phase, 0)`.
An absent phase keeps 0; an unknown phase name hits the `.get` default 0. -/
def phaseIdxOf : EnginePhase → Nat
  | .noPhase => 0
  | .known p => phase_to_idx p
  | .unknown _ => 0

/-- Lines 198–202 of `_extract_observation`: start from a length-100 zero
array and set index `a` to 1 for each legal action index `a < 100`. -/
def available_actions_mask (valid : List Nat) : List Bool :=
  valid.foldl (fun arr a => if a < 100 then arr.set a true else arr)
    (List.replicate 100 false)

/-- An encoded observation (`_extract_observation`'s return dict):
`phase` is the single entry of the `phase` array, `available_actions` the
length-100 binary mask, `game_info` the 10-entry numeric vector. -/
structure Observation where
  phase : Nat
  available_actions : List Bool
  game_info : List ℚ
  deriving DecidableEq, Repr

/-- The `game_info` vector built in `_extract_observation` (lines 205–218)
from `_get_game_info` (lines 168–188): score, money, ante, round,
hands_remaining, discards_remaining, blind_started, blind_finished,
step_count, phase_idx, with the fixed defaults ante=1, round=1,
hands_remaining=4, discards_remaining=3. -/
def game_info_vec (s : TrackedState) (phase_idx : Nat) : List ℚ :=
  [ (s.current_score : ℚ)
  , (s.current_money : ℚ)
  , 1
  , 1
  , 4
  , 3
  , (if s.blind_started then 1 else 0)
  , (if s.blind_finished then 1 else 0)
  , (s.step_count : ℚ)
  , (phase_idx : ℚ) ]

/-- Method `BalatroEnv._extract_observation` (lines 190–224). -/
def extract_observation (s : TrackedState) (r : StepResult) : Observation :=
  let phase_idx := phaseIdxOf r.phase
  { phase := phase_idx
    available_actions := available_actions_mask r.actions
    game_info := game_info_vec s phase_idx }

/-- Method `BalatroEnv._calculate_reward` (lines 226–247): positive score delta
plus 250 per positive money delta, plus the constant step reward, plus the
blind-completion bonus when the phase is RoundEnd and both lifecycle flags
hold.  The `max` is taken over the integer deltas as in the Python source. -/
def calculate_reward (s : TrackedState) (r : StepResult) : ℚ :=
  let score_reward : ℚ := ((max 0 (s.current_score - s.previous_score) : Int) : ℚ)
  let money_reward : ℚ := ((max 0 (s.current_money - s.previous_money) : Int) : ℚ) * 250
  let total_reward := score_reward + money_reward + STEP_REWARD
  if r.phase = .known .RoundEnd ∧ s.blind_started = true ∧ s.blind_finished = true then
    total_reward + BLIND_COMPLETION_BASE_REWARD
  else
    total_reward

/-- Method `BalatroEnv._is_done` (lines 250–266). -/
def is_done (s : TrackedState) (r : StepResult) (max_episode_steps : Nat) : Bool :=
  if r.status = .Finished then true
  else if r.phase = .known .RoundEnd ∧ s.blind_started = true then true
  else if s.step_count ≥ max_episode_steps then true
  else false

/-- The inline action filter of `BalatroEnv.step` (lines 372–386): returns
the effective (`mapped_action`) index and the invalid-action penalty. -/
def resolve_action (action : Nat) (legal : List Nat) : Nat × ℚ :=
  if action ∈ legal then
    (action, 0)
  else
    match legal with
    | a :: _ => (a, -10)
    | [] => (0, -1/2)

/-- The phase-transition tracking block of `BalatroEnv.step`
(lines 392–424), evaluated before `prev_phase` is advanced. -/
def phase_tracker_update (s : TrackedState) (r : StepResult)
    (snapshot : Option (Int × Int)) : TrackedState :=
  if r.phase = .known .BlindSelect then
    { s with blind_started := false, blind_finished := false }
  else if r.phase = .known .Playing ∧ s.prev_phase ≠ .known .Playing then
    let s1 := { s with blind_started := true }
    match snapshot with
    | some (score, money) =>
        { s1 with blind_score_at_start := score, blind_money_at_start := money }
    | none =>
        { s1 with blind_score_at_start := s1.current_score
                  blind_money_at_start := s1.current_money }
  else if r.phase = .known .RoundEnd ∧ s.blind_started = true then
    let s1 := { s with blind_finished := true }
    match snapshot with
    | some (score, money) =>
        { s1 with current_score := score - s1.blind_score_at_start
                  current_money := money - s1.blind_money_at_start }
    | none => s1
  else if r.phase = .known .Playing ∧ s.blind_started = true then
    match snapshot with
    | some (score, money) =>
        { s with current_score := score - s.blind_score_at_start
                 current_money := money - s.blind_money_at_start }
    | none => s
  else
    s

/-- A value stored in a Python `info` dict. -/
inductive InfoVal where
  | phaseVal (p : EnginePhase)
  | statusVal (st : Status)
  | intVal (n : Int)
  | natVal (n : Nat)
  | boolVal (b : Bool)
  | natListVal (l : List Nat)
  | outcomeVal (o : Option Bool)
  deriving DecidableEq, Repr

/-- A Python `info` dict: an ordered association list of string keys. -/
abbrev Info : Type := List (String × InfoVal)

/-- Dict lookup on an `Info`. -/
def infoGet (i : Info) (k : String) : Option InfoVal :=
  (i.find? (fun p => p.1 == k)).map (fun p => p.2)

/-- The `info` dict built by `BalatroEnv.step` (lines 449–459), from the
post-step tracked state `s` (whose `last_valid_actions` already holds the
new `StepResult`'s action indices). -/
def step_info (r : StepResult) (s : TrackedState) (action mapped_action : Nat) : Info :=
  [ ("phase", .phaseVal r.phase)
  , ("status", .statusVal r.status)
  , ("score", .intVal s.current_score)
  , ("money", .intVal s.current_money)
  , ("action_mapped", .boolVal (action != mapped_action))
  , ("original_action", .natVal action)
  , ("mapped_action", .natVal mapped_action)
  , ("valid_actions", .natListVal s.last_valid_actions)
  , ("finished", .outcomeVal r.finished) ]

/-- What `BalatroEnv.step` returns (minus the tracked-state mutation). -/
structure StepOutput where
  observation : Observation
  reward : ℚ
  terminated : Bool
  truncated : Bool
  info : Info
  deriving DecidableEq, Repr

/-- Method `BalatroEnv.step` (lines 366–461), with the engine's response to
`engine.step(mapped_action)` — the `StepResult` plus the snapshot query
outcome — supplied as the input `e`.  The `let`s follow the source order:
step-count increment (370), action filter (372–386), phase tracking
(392–424), `prev_phase` advance (427), observation (430),
`last_valid_actions` cache (433), reward (436), `previous_score/money`
advance (438–439), penalty application (442), termination (445–446),
info dict (449–459). -/
def step (cfg : EnvConfig) (s : TrackedState) (action : Nat) (e : EngineOut) :
    TrackedState × StepOutput :=
  let s1 := { s with step_count := s.step_count + 1 }
  let ra := resolve_action action s1.last_valid_actions
  let mapped_action := ra.1
  let invalid_action_penalty := ra.2
  let s2 := phase_tracker_update s1 e.result e.snapshot
  let s3 := { s2 with prev_phase := e.result.phase }
  let observation := extract_observation s3 e.result
  let s4 := { s3 with last_valid_actions := e.result.actions }
  let baseReward := calculate_reward s4 e.result
  let s5 := { s4 with previous_score := s4.current_score
                      previous_money := s4.current_money }
  let reward := baseReward + invalid_action_penalty
  let terminated := is_done s5 e.result cfg.max_episode_steps
  let info := step_info e.result s5 action mapped_action
  (s5, { observation := observation
         reward := reward
         terminated := terminated
         truncated := false
         info := info })

/-- The tracking-variable block of `BalatroEnv._reset_engine`
(lines 154–163).  Note that, as in the source, `blind_started`,
`blind_finished` and the two blind baselines are NOT touched here. -/
def reset_engine_state (s : TrackedState) : TrackedState :=
  { s with initial_score := 0
           initial_money := 0
           current_score := 0
           current_money := 0
           step_count := 0
           previous_score := 0
           previous_money := 0
           prev_phase := .noPhase
           last_valid_actions := [] }

/-- Method `BalatroEnv.reset` (lines 268–298), with the probe `engine.step(None)`
result supplied as input: engine-state reset, observation extraction,
`last_valid_actions` cache, info dict (lines 289–293: exactly the three
keys `phase`, `status`, `valid_actions`), `prev_phase` initialisation. -/
def reset (s : TrackedState) (probe : StepResult) :
    TrackedState × Observation × Info :=
  let s1 := reset_engine_state s
  let observation := extract_observation s1 probe
  let s2 := { s1 with last_valid_actions := probe.actions }
  let info : Info :=
    [ ("phase", .phaseVal probe.phase)
    , ("status", .statusVal probe.status)
    , ("valid_actions", .natListVal s2.last_valid_actions) ]
  let s3 := { s2 with prev_phase := probe.phase }
  (s3, observation, info)

/-! ### Multi-step runs (for the episode-level bonus property) -/

/-- One entry of an episode trace: the tracked state before the step, the
requested action, the engine's response, and the step's output. -/
structure StepTrace where
  pre : TrackedState
  action : Nat
  eng : EngineOut
  out : StepOutput
  deriving DecidableEq, Repr

/-- Run a sequence of `step` calls from a given tracked state, recording
each step's pre-state, inputs and output. -/
def runEnv (cfg : EnvConfig) (s : TrackedState) :
    List (Nat × EngineOut) → List StepTrace
  | [] => []
  | (a, e) :: rest =>
      let p := step cfg s a e
      ⟨s, a, e, p.2⟩ :: runEnv cfg p.1 rest

/-- The steps of one episode: the run's steps up to and including the
first one whose `terminated` flag is true. -/
def episodeSteps : List StepTrace → List StepTrace
  | [] => []
  | t :: rest => if t.out.terminated then [t] else t :: episodeSteps rest

/-- Whether a given step adds `BLIND_COMPLETION_BASE_REWARD` to its
reward: the guard of line 244 of `_calculate_reward`, evaluated at the
tracked state the reward computation sees (i.e. after this step's phase
tracking; `prev_phase` and `last_valid_actions` do not enter the guard). -/
def bonusAwarded (t : StepTrace) : Bool :=
  let s1 := { t.pre with step_count := t.pre.step_count + 1 }
  let s2 := phase_tracker_update s1 t.eng.result t.eng.snapshot
  (t.eng.result.phase == .known .RoundEnd)
    && s2.blind_started && s2.blind_finished

/-! ### Output-suppression guard (`BalatroEnv._suppress_output`) -/

/-- An open file handle owned by the suppression guard: `id` identifies
the descriptor, `target` the open file description it refers to, `isDup`
whether it was produced by `os.dup` (the saved stdout/stderr copies, as
opposed to the freshly opened devnull sinks). -/
structure Handle where
  id : Nat
  target : Nat
  isDup : Bool
  deriving DecidableEq, Repr

/-- The process-level descriptor state the guard manipulates: the targets
of the standard output (`slot1` = FD 1) and standard error (`slot2` = FD 2)
slots, the guard-owned open handles, and the log of every close performed
(a double release would appear twice in `closeLog`). -/
structure FDState where
  slot1 : Nat
  slot2 : Nat
  handles : List Handle
  closeLog : List Nat
  deriving DecidableEq, Repr

/-- The possible exits of one `_suppress_output` invocation: everything
succeeds, one of the fallible acquisition operations raises — the two
`os.dup` saves (lines 309–310, which precede the `try`, so no recovery
code is in scope when they fail), `os.open(os.devnull)` line 314,
`os.dup2(devnull, 1)` line 317, `os.dup2(devnull, 2)` line 318,
`open(os.devnull, 'w')` lines 323 and 324 — or the wrapped body raises. -/
inductive GuardExit where
  | noFail
  | dupStdoutFails
  | dupStderrFails
  | openDevnullFails
  | dup2StdoutFails
  | dup2StderrFails
  | pyOpenStdoutFails
  | pyOpenStderrFails
  | bodyRaises
  deriving DecidableEq, Repr

/-- Result of one guard invocation: the final descriptor state and whether
an exception propagated out of the guard. -/
structure GuardResult where
  final : FDState
  raised : Bool
  deriving DecidableEq, Repr

/-- Operation `os.close(i)`: succeeds (removing the handle and logging the close)
only when a handle with descriptor `i` is open; otherwise leaves the state
unchanged (the raised `OSError` is handled by the caller's control flow). -/
def closeFd (st : FDState) (i : Nat) : FDState :=
  if st.handles.any (fun h => h.id == i) then
    { st with handles := st.handles.filter (fun h => h.id != i)
              closeLog := st.closeLog ++ [i] }
  else st

/-- The `except Exception` recovery block of `_suppress_output`
(lines 343–352): inside a bare try, re-point FD 1 and FD 2 at the saved
targets and close the two saved descriptors, where the first failing
operation (e.g. `os.dup2` from an already-closed descriptor) silently
aborts the rest; then the original exception is re-raised. -/
def guardRecover (st : FDState) : FDState :=
  match st.handles.find? (fun h => h.id == 0) with
  | none => st
  | some h1 =>
    let stA := { st with slot1 := h1.target }
    match stA.handles.find? (fun h => h.id == 1) with
    | none => stA
    | some h2 =>
      let stB := { stA with slot2 := h2.target }
      closeFd (closeFd stB 0) 1

/-- The inner `finally` block of `_suppress_output` (lines 328–342):
close the two Python devnull files, restore the Python-level references,
re-point FD 1 and FD 2 at the saved targets, and close the two saved
descriptors and the devnull descriptor. -/
def guardRelease (st : FDState) : FDState :=
  let stA := closeFd (closeFd st 3) 4
  let stB :=
    match stA.handles.find? (fun h => h.id == 0) with
    | some h => { stA with slot1 := h.target }
    | none => stA
  let stC :=
    match stB.handles.find? (fun h => h.id == 1) with
    | some h => { stB with slot2 := h.target }
    | none => stB
  closeFd (closeFd (closeFd stC 0) 1) 2

/-- One invocation of `BalatroEnv._suppress_output` (lines 300–354) around
a wrapped engine call, as a transition on the descriptor state.  `quiet`
is the environment's quiet flag (when false the guard is a bare `yield`).
`s1`/`s2` are the targets FD 1 and FD 2 point at on entry; `dn` is the
open file description of `/dev/null`.  Descriptor ids: 0 and 1 are the
`os.dup` copies of stdout and stderr (lines 309–310), 2 is the `os.open`
devnull descriptor (line 314), 3 and 4 are the descriptors of the two
Python-level `open(os.devnull, 'w')` files (lines 323–324).  `ex` selects
which operation, if any, raises.  The two `os.dup` saves happen before the
`try` block is entered: when `os.dup(1)` itself fails nothing has been
acquired yet, but when `os.dup(2)` fails the already-duplicated stdout
copy (descriptor 0) is left open with no recovery code in scope — the
exception propagates immediately. -/
def runGuard (quiet : Bool) (s1 s2 dn : Nat) (ex : GuardExit) : GuardResult :=
  if quiet = false then
    ⟨⟨s1, s2, [], []⟩, ex == .bodyRaises⟩
  else
    if ex == .dupStdoutFails then ⟨⟨s1, s2, [], []⟩, true⟩ else
    let stA : FDState := ⟨s1, s2, [⟨0, s1, true⟩], []⟩
    if ex == .dupStderrFails then ⟨stA, true⟩ else
    let st0 : FDState := { stA with handles := stA.handles ++ [⟨1, s2, true⟩] }
    if ex == .openDevnullFails then ⟨guardRecover st0, true⟩ else
    let st1 := { st0 with handles := st0.handles ++ [⟨2, dn, false⟩] }
    if ex == .dup2StdoutFails then ⟨guardRecover st1, true⟩ else
    let st2 := { st1 with slot1 := dn }
    if ex == .dup2StderrFails then ⟨guardRecover st2, true⟩ else
    let st3 := { st2 with slot2 := dn }
    if ex == .pyOpenStdoutFails then ⟨guardRecover st3, true⟩ else
    let st4 := { st3 with handles := st3.handles ++ [⟨3, dn, false⟩] }
    if ex == .pyOpenStderrFails then ⟨guardRecover st4, true⟩ else
    let st5 := { st4 with handles := st4.handles ++ [⟨4, dn, false⟩] }
    let st6 := guardRelease st5
    if ex == .bodyRaises then ⟨guardRecover st6, true⟩ else ⟨st6, false⟩

/-! ### Helper lemmas and concrete fixtures -/

/-- The reward computed by `step` before the invalid-action penalty is
applied (line 436 of the source): `_calculate_reward` evaluated at the
tracked state after phase tracking and action caching. -/
def step_base_reward (s : TrackedState) (e : EngineOut) : ℚ :=
  let s1 := { s with step_count := s.step_count + 1 }
  let s2 := phase_tracker_update s1 e.result e.snapshot
  let s3 := { s2 with prev_phase := e.result.phase }
  let s4 := { s3 with last_valid_actions := e.result.actions }
  calculate_reward s4 e.result

theorem step_reward_decomp (cfg : EnvConfig) (s : TrackedState) (a : Nat)
    (e : EngineOut) :
    (step cfg s a e).2.reward
      = step_base_reward s e + (resolve_action a s.last_valid_actions).2 := rfl

/-- The phase-tracking block only ever writes the lifecycle flags, the two
baselines and the current score/money; every other tracked field passes
through unchanged. -/
theorem phase_tracker_update_preserves (s : TrackedState) (r : StepResult)
    (snap : Option (Int × Int)) :
    (phase_tracker_update s r snap).step_count = s.step_count
    ∧ (phase_tracker_update s r snap).previous_score = s.previous_score
    ∧ (phase_tracker_update s r snap).previous_money = s.previous_money
    ∧ (phase_tracker_update s r snap).prev_phase = s.prev_phase
    ∧ (phase_tracker_update s r snap).last_valid_actions = s.last_valid_actions := by
  unfold phase_tracker_update
  rcases snap with _ | ⟨sc, mo⟩ <;> split_ifs <;> simp

theorem resolve_action_mem {a : Nat} {legal : List Nat} (h : a ∈ legal) :
    resolve_action a legal = (a, 0) := by
  simp [resolve_action, h]

theorem resolve_action_remap {a b : Nat} {l : List Nat} (h : a ∉ b :: l) :
    resolve_action a (b :: l) = (b, -10) := by
  simp [resolve_action, h]

theorem resolve_action_nil (a : Nat) : resolve_action a [] = (0, -1/2) := by
  simp [resolve_action]

theorem step_info_mapped_action (cfg : EnvConfig) (s : TrackedState) (a : Nat)
    (e : EngineOut) :
    infoGet (step cfg s a e).2.info "mapped_action"
      = some (.natVal (resolve_action a s.last_valid_actions).1) := rfl

theorem step_info_action_mapped (cfg : EnvConfig) (s : TrackedState) (a : Nat)
    (e : EngineOut) :
    infoGet (step cfg s a e).2.info "action_mapped"
      = some (.boolVal (a != (resolve_action a s.last_valid_actions).1)) := rfl

/-- A sample engine response (Shop decision point offering action 3). -/
def engShop : EngineOut := ⟨⟨.NeedsInput, .known .Shop, [3], none⟩, none⟩

/-- A sample tracked state whose cached legal actions are `[5, 7]`. -/
def exState57 : TrackedState := { initState with last_valid_actions := [5, 7] }

/-! ### C1 — action validation / remapping -/

/-- C1 (amended): `step` resolves the requested action against the cached
legal-action list in three branches.  If the requested action is legal, the
effective action is the requested one, the penalty is 0 and
`info.action_mapped` is false.  If it is illegal and the list is non-empty,
the effective action is the list's head, the penalty is exactly −10.0 and
`action_mapped` is true.  If the list is empty, the effective action is 0
and the penalty is exactly −0.5, but — contrary to the claim —
`action_mapped` is `requested != 0` (the source sets it to
`action != mapped_action`, line 454), so it is false when the requested
action was 0. -/
theorem c1_action_remap (cfg : EnvConfig) (s : TrackedState) (a : Nat)
    (e : EngineOut) :
    (a ∈ s.last_valid_actions →
        infoGet (step cfg s a e).2.info "mapped_action" = some (.natVal a)
      ∧ (step cfg s a e).2.reward = step_base_reward s e + 0
      ∧ infoGet (step cfg s a e).2.info "action_mapped" = some (.boolVal false))
  ∧ (∀ b l, s.last_valid_actions = b :: l → a ∉ s.last_valid_actions →
        infoGet (step cfg s a e).2.info "mapped_action" = some (.natVal b)
      ∧ (step cfg s a e).2.reward = step_base_reward s e + (-10)
      ∧ infoGet (step cfg s a e).2.info "action_mapped" = some (.boolVal true))
  ∧ (s.last_valid_actions = [] →
        infoGet (step cfg s a e).2.info "mapped_action" = some (.natVal 0)
      ∧ (step cfg s a e).2.reward = step_base_reward s e + (-(1/2))
      ∧ infoGet (step cfg s a e).2.info "action_mapped"
          = some (.boolVal (a != 0))) := by
  refine ⟨fun hmem => ?_, fun b l hl hmem => ?_, fun hnil => ?_⟩
  · rw [step_info_mapped_action, step_info_action_mapped, step_reward_decomp,
      resolve_action_mem hmem]
    simp
  · rw [step_info_mapped_action, step_info_action_mapped, step_reward_decomp, hl,
      resolve_action_remap (hl ▸ hmem)]
    have hab : a ≠ b := by
      intro h; exact hmem (hl ▸ (h ▸ List.mem_cons_self a l))
    simp [hab]
  · rw [step_info_mapped_action, step_info_action_mapped, step_reward_decomp, hnil,
      resolve_action_nil]
    norm_num

/-- C1 witness: with cached legal actions `[5, 7]` and requested action 9,
the action is remapped and `info.action_mapped` is true. -/
theorem c1_action_remap_witness :
    infoGet (step ⟨1000⟩ exState57 9 engShop).2.info "action_mapped"
      = some (.boolVal true) :=
  ((c1_action_remap ⟨1000⟩ exState57 9 engShop).2.1 5 [7] rfl (by decide)).2.2

/-- C1 counterexample: from the initial state (empty cached legal-action
list) with requested action 0, the empty-list fallback branch is taken
(the effective action is 0, an action the agent did not get to keep by
right), yet `info.action_mapped` is `false`, where the claim requires
`was_remapped` to be true in this branch. -/
theorem c1_action_remap_counterexample :
    initState.last_valid_actions = []
    ∧ infoGet (step ⟨1000⟩ initState 0 engShop).2.info "action_mapped"
        = some (.boolVal false) := ⟨rfl, rfl⟩

/-! ### C4 — termination -/

theorem is_done_iff (s : TrackedState) (r : StepResult) (m : Nat) :
    is_done s r m = true ↔
      r.status = .Finished
      ∨ (r.phase = .known .RoundEnd ∧ s.blind_started = true)
      ∨ s.step_count ≥ m := by
  unfold is_done
  split_ifs with h1 h2 h3 <;> simp_all

/-- C4: `step` reports `terminated` exactly when the engine status is
`Finished`, or the phase is `RoundEnd` while `blind_started` holds, or the
incremented step count has reached `max_episode_steps`; and `truncated` is
false on every step. -/
theorem c4_termination (cfg : EnvConfig) (s : TrackedState) (a : Nat)
    (e : EngineOut) :
    ((step cfg s a e).2.terminated = true ↔
      e.result.status = .Finished
      ∨ (e.result.phase = .known .RoundEnd
          ∧ (step cfg s a e).1.blind_started = true)
      ∨ (step cfg s a e).1.step_count ≥ cfg.max_episode_steps)
    ∧ (step cfg s a e).1.step_count = s.step_count + 1
    ∧ (step cfg s a e).2.truncated = false := by
  refine ⟨is_done_iff (step cfg s a e).1 e.result cfg.max_episode_steps, ?_, rfl⟩
  show (phase_tracker_update { s with step_count := s.step_count + 1 }
      e.result e.snapshot).step_count = s.step_count + 1
  rw [(phase_tracker_update_preserves _ _ _).1]

/-! ### C10 — unknown or absent phase -/

/-- C10: when the engine reports no phase, or a phase name outside the six
known ones, the observation encoder still produces an observation and
encodes phase index 0 (the Shop index) both in the `phase` field and in the
last `game_info` entry. -/
theorem c10_unknown_phase (s : TrackedState) (r : StepResult)
    (h : r.phase = .noPhase ∨ ∃ name, r.phase = .unknown name) :
    (extract_observation s r).phase = 0
    ∧ (extract_observation s r).game_info.getD 9 0 = 0 := by
  obtain h | ⟨name, h⟩ := h <;>
    simp [extract_observation, phaseIdxOf, game_info_vec, h]

/-- C10 witness: a `StepResult` carrying the unknown phase name "Boss" is
encoded with phase index 0. -/
theorem c10_unknown_phase_witness :
    (extract_observation initState ⟨.NeedsInput, .unknown "Boss", [], none⟩).phase = 0
    ∧ (extract_observation initState
        ⟨.NeedsInput, .unknown "Boss", [], none⟩).game_info.getD 9 0 = 0 :=
  c10_unknown_phase initState ⟨.NeedsInput, .unknown "Boss", [], none⟩
    (Or.inr ⟨"Boss", rfl⟩)

/-! ### C2 — reward formula -/

/-- C2: the reward returned by `step` is
`max(0, Δscore) + 250·max(0, Δmoney) − 0.01 + blind_bonus + remap_penalty`,
with the deltas taken between this step's tracked values and the previous
step's; afterwards `previous_score`/`previous_money` hold the current
values; and the score/money contribution is never negative. -/
theorem c2_reward_formula (cfg : EnvConfig) (s : TrackedState) (a : Nat)
    (e : EngineOut) :
    ((step cfg s a e).2.reward
      = ((max 0 ((step cfg s a e).1.current_score - s.previous_score) : Int) : ℚ)
        + 250 * ((max 0 ((step cfg s a e).1.current_money - s.previous_money) : Int) : ℚ)
        - 1/100
        + (if e.result.phase = .known .RoundEnd
              ∧ (step cfg s a e).1.blind_started = true
              ∧ (step cfg s a e).1.blind_finished = true
            then (1000 : ℚ) else 0)
        + (resolve_action a s.last_valid_actions).2)
    ∧ (step cfg s a e).1.previous_score = (step cfg s a e).1.current_score
    ∧ (step cfg s a e).1.previous_money = (step cfg s a e).1.current_money
    ∧ (0:ℚ)
        ≤ ((max 0 ((step cfg s a e).1.current_score - s.previous_score) : Int) : ℚ)
          + 250 * ((max 0 ((step cfg s a e).1.current_money - s.previous_money) : Int) : ℚ) := by
  have hprev := phase_tracker_update_preserves
    { s with step_count := s.step_count + 1 } e.result e.snapshot
  refine ⟨?_, rfl, rfl, ?_⟩
  · rw [step_reward_decomp]
    show calculate_reward _ e.result + _ = _
    unfold calculate_reward
    simp only [step, STEP_REWARD, BLIND_COMPLETION_BASE_REWARD]
    rw [hprev.2.1, hprev.2.2.1]
    split_ifs <;> ring
  · have h1 : (0:ℤ) ≤ max 0 ((step cfg s a e).1.current_score - s.previous_score) :=
      le_max_left 0 _
    have h2 : (0:ℤ) ≤ max 0 ((step cfg s a e).1.current_money - s.previous_money) :=
      le_max_left 0 _
    have h1q : (0:ℚ) ≤ ((max 0 ((step cfg s a e).1.current_score - s.previous_score) : Int) : ℚ) := by
      exact_mod_cast h1
    have h2q : (0:ℚ) ≤ ((max 0 ((step cfg s a e).1.current_money - s.previous_money) : Int) : ℚ) := by
      exact_mod_cast h2
    linarith

/-! ### C3 — phase-tracker transition table -/

/-- C3: per step, the lifecycle flags and blind-relative score tracking
change exactly as the transition table prescribes for
`(prev_phase, new_phase)`: entering `BlindSelect` clears both flags;
entering `Playing` from a non-Playing phase (including the initial absent
phase) sets `blind_started` and captures the baselines (from the snapshot
when available, from tracked values otherwise); reaching `RoundEnd` while
`blind_started` sets `blind_finished` and finalises the blind-relative
score/money when the snapshot is available; a `Playing → Playing` step
while `blind_started` refreshes them; no other transition changes either
flag; and `prev_phase` is set to the new phase unconditionally. -/
theorem c3_phase_tracker (cfg : EnvConfig) (s : TrackedState) (a : Nat)
    (e : EngineOut) :
    ((step cfg s a e).1.prev_phase = e.result.phase)
  ∧ (e.result.phase = .known .BlindSelect →
       (step cfg s a e).1.blind_started = false
     ∧ (step cfg s a e).1.blind_finished = false)
  ∧ (e.result.phase = .known .Playing → s.prev_phase ≠ .known .Playing →
       (step cfg s a e).1.blind_started = true
     ∧ (step cfg s a e).1.blind_finished = s.blind_finished
     ∧ (∀ sc mo, e.snapshot = some (sc, mo) →
          (step cfg s a e).1.blind_score_at_start = sc
        ∧ (step cfg s a e).1.blind_money_at_start = mo)
     ∧ (e.snapshot = none →
          (step cfg s a e).1.blind_score_at_start = s.current_score
        ∧ (step cfg s a e).1.blind_money_at_start = s.current_money))
  ∧ (e.result.phase = .known .RoundEnd → s.blind_started = true →
       (step cfg s a e).1.blind_finished = true
     ∧ (step cfg s a e).1.blind_started = true
     ∧ (∀ sc mo, e.snapshot = some (sc, mo) →
          (step cfg s a e).1.current_score = sc - s.blind_score_at_start
        ∧ (step cfg s a e).1.current_money = mo - s.blind_money_at_start))
  ∧ (e.result.phase = .known .Playing → s.prev_phase = .known .Playing →
      s.blind_started = true →
       (step cfg s a e).1.blind_started = true
     ∧ (step cfg s a e).1.blind_finished = s.blind_finished
     ∧ (∀ sc mo, e.snapshot = some (sc, mo) →
          (step cfg s a e).1.current_score = sc - s.blind_score_at_start
        ∧ (step cfg s a e).1.current_money = mo - s.blind_money_at_start))
  ∧ (e.result.phase ≠ .known .BlindSelect →
     ¬(e.result.phase = .known .Playing ∧ s.prev_phase ≠ .known .Playing) →
     ¬(e.result.phase = .known .RoundEnd ∧ s.blind_started = true) →
       (step cfg s a e).1.blind_started = s.blind_started
     ∧ (step cfg s a e).1.blind_finished = s.blind_finished) := by
  refine ⟨rfl, ?_, ?_, ?_, ?_, ?_⟩
  · intro h1
    constructor <;>
      simp [step, phase_tracker_update, h1]
  · intro h1 h2
    refine ⟨?_, ?_, fun sc mo hsnap => ?_, fun hsnap => ?_⟩ <;>
      rcases hsn : e.snapshot with _ | ⟨sc2, mo2⟩ <;>
      simp_all [step, phase_tracker_update]
  · intro h1 h2
    refine ⟨?_, ?_, fun sc mo hsnap => ?_⟩ <;>
      rcases hsn : e.snapshot with _ | ⟨sc2, mo2⟩ <;>
      simp_all [step, phase_tracker_update]
  · intro h1 h2 h3
    refine ⟨?_, ?_, fun sc mo hsnap => ?_⟩ <;>
      rcases hsn : e.snapshot with _ | ⟨sc2, mo2⟩ <;>
      simp_all [step, phase_tracker_update]
  · intro h1 h2 h3
    have hbs : (phase_tracker_update { s with step_count := s.step_count + 1 }
        e.result e.snapshot).blind_started = s.blind_started := by
      unfold phase_tracker_update
      rcases e.snapshot with _ | ⟨sc, mo⟩ <;> split_ifs <;> simp_all
    have hbf : (phase_tracker_update { s with step_count := s.step_count + 1 }
        e.result e.snapshot).blind_finished = s.blind_finished := by
      unfold phase_tracker_update
      rcases e.snapshot with _ | ⟨sc, mo⟩ <;> split_ifs <;> simp_all
    exact ⟨hbs, hbf⟩

/-! ### C5 — reset -/

/-- Engine response entering the Playing phase with a snapshot available. -/
def engPlaying : EngineOut := ⟨⟨.NeedsInput, .known .Playing, [0, 2], none⟩, some (10, 4)⟩

/-- The probe result `reset` expects after re-initialisation. -/
def probeBlindSelect : StepResult := ⟨.NeedsInput, .known .BlindSelect, [0, 1], none⟩

/-- C5 (amended): `reset` zeroes the score/money tracking and the step
count and takes `last_valid_actions` and `prev_phase` from the probe
result, but — contrary to the claim — it leaves `blind_started` and
`blind_finished` exactly as the previous episode left them
(`_reset_engine`, lines 154–163, never touches either flag; they are only
cleared by `__init__` or by a later `BlindSelect` transition). -/
theorem c5_reset (s : TrackedState) (probe : StepResult) :
    (reset s probe).1.current_score = 0
    ∧ (reset s probe).1.current_money = 0
    ∧ (reset s probe).1.previous_score = 0
    ∧ (reset s probe).1.previous_money = 0
    ∧ (reset s probe).1.step_count = 0
    ∧ (reset s probe).1.initial_score = 0
    ∧ (reset s probe).1.initial_money = 0
    ∧ (reset s probe).1.last_valid_actions = probe.actions
    ∧ (reset s probe).1.prev_phase = probe.phase
    ∧ (reset s probe).1.blind_started = s.blind_started
    ∧ (reset s probe).1.blind_finished = s.blind_finished :=
  ⟨rfl, rfl, rfl, rfl, rfl, rfl, rfl, rfl, rfl, rfl, rfl⟩

/-- C5 counterexample: starting a blind (a step into the Playing phase)
sets `blind_started`; a subsequent `reset` returns a state whose
`blind_started` is still true, where the claim requires it to be false
after every `reset`. -/
theorem c5_reset_counterexample :
    (step ⟨1000⟩ { initState with last_valid_actions := [1] } 1 engPlaying).1.blind_started
      = true
    ∧ (reset (step ⟨1000⟩ { initState with last_valid_actions := [1] } 1 engPlaying).1
        probeBlindSelect).1.blind_started = true :=
  ⟨rfl, rfl⟩

/-- C3 witness: a step into `BlindSelect` from a state with both lifecycle
flags set clears `blind_started`. -/
theorem c3_phase_tracker_witness :
    (step ⟨1000⟩ { initState with blind_started := true, blind_finished := true }
        0 ⟨⟨.NeedsInput, .known .BlindSelect, [1], none⟩, none⟩).1.blind_started = false :=
  ((c3_phase_tracker ⟨1000⟩
      { initState with blind_started := true, blind_finished := true }
      0 ⟨⟨.NeedsInput, .known .BlindSelect, [1], none⟩, none⟩).2.1 rfl).1

/-! ### C6 — observation encoding -/

theorem mask_foldl_length (valid : List Nat) (arr : List Bool) :
    (valid.foldl (fun a x => if x < 100 then a.set x true else a) arr).length
      = arr.length := by
  induction valid generalizing arr with
  | nil => rfl
  | cons x xs ih =>
    rw [List.foldl_cons, ih]
    split <;> simp

theorem mask_foldl_getD (valid : List Nat) (arr : List Bool) (i : Nat)
    (hlen : arr.length = 100) (hi : i < 100) :
    (valid.foldl (fun a x => if x < 100 then a.set x true else a) arr).getD i false
      = (arr.getD i false || decide (i ∈ valid)) := by
  induction valid generalizing arr with
  | nil => simp
  | cons x xs ih =>
    rw [List.foldl_cons,
      ih (if x < 100 then arr.set x true else arr) (by split <;> simp [hlen])]
    by_cases hx : x = i
    · subst hx
      rw [if_pos hi, List.getD_eq_getElem?_getD,
        List.getElem?_set_self (by rw [hlen]; exact hi)]
      simp
    · have hni : i ≠ x := fun h => hx h.symm
      have hstep : (if x < 100 then arr.set x true else arr).getD i false
          = arr.getD i false := by
        split
        · rw [List.getD_eq_getElem?_getD, List.getElem?_set_ne hx,
            ← List.getD_eq_getElem?_getD]
        · rfl
      rw [hstep]
      simp [List.mem_cons, hni]

theorem available_actions_mask_spec (valid : List Nat) (i : Nat) (hi : i < 100) :
    ((available_actions_mask valid).getD i false = true ↔ i ∈ valid) := by
  unfold available_actions_mask
  rw [mask_foldl_getD valid _ i (by simp) hi]
  rw [List.getD_eq_getElem?_getD, List.getElem?_replicate, if_pos hi]
  simp

/-- C6: the encoded observation has the same fixed shape in every phase:
`available_actions` is a length-100 binary vector holding 1 exactly at the
legal action indices below 100 (larger indices are dropped, with no
error — the encoder is total), and `game_info` is the 10-entry vector in
the fixed order score, money, ante, round, hands_remaining,
discards_remaining, blind_started, blind_finished, step_count, phase_index
with the defaults ante=1, round=1, hands_remaining=4,
discards_remaining=3. -/
theorem c6_observation_shape (s : TrackedState) (r : StepResult) :
    (extract_observation s r).available_actions.length = 100
    ∧ (∀ i : Nat, i < 100 →
        ((extract_observation s r).available_actions.getD i false = true
          ↔ i ∈ r.actions))
    ∧ (extract_observation s r).game_info.length = 10
    ∧ (extract_observation s r).game_info
        = [ (s.current_score : ℚ), (s.current_money : ℚ), 1, 1, 4, 3,
            (if s.blind_started then 1 else 0),
            (if s.blind_finished then 1 else 0),
            (s.step_count : ℚ), (phaseIdxOf r.phase : ℚ) ] := by
  refine ⟨?_, fun i hi => available_actions_mask_spec r.actions i hi, rfl, rfl⟩
  show (available_actions_mask r.actions).length = 100
  unfold available_actions_mask
  rw [mask_foldl_length]
  simp

/-- C6 witness: with legal actions `[5, 205]`, index 5 of the mask is set,
index 6 is not, the out-of-range index 205 is silently dropped, and the
mask still has length 100. -/
theorem c6_observation_shape_witness :
    ((extract_observation initState
        ⟨.NeedsInput, .known .Shop, [5, 205], none⟩).available_actions.getD 5 false = true
      ↔ 5 ∈ [5, 205])
    ∧ (extract_observation initState
        ⟨.NeedsInput, .known .Shop, [5, 205], none⟩).available_actions.length = 100 :=
  ⟨(c6_observation_shape initState
      ⟨.NeedsInput, .known .Shop, [5, 205], none⟩).2.1 5 (by decide),
   (c6_observation_shape initState ⟨.NeedsInput, .known .Shop, [5, 205], none⟩).1⟩

/-! ### C7 — the blind-completion bonus is unique within an episode -/

theorem bonusAwarded_terminated (cfg : EnvConfig) (s : TrackedState) (a : Nat)
    (e : EngineOut)
    (h : bonusAwarded ⟨s, a, e, (step cfg s a e).2⟩ = true) :
    (step cfg s a e).2.terminated = true := by
  unfold bonusAwarded at h
  simp only [Bool.and_eq_true, beq_iff_eq] at h
  obtain ⟨⟨hph, hbs⟩, _⟩ := h
  show is_done (step cfg s a e).1 e.result cfg.max_episode_steps = true
  rw [is_done_iff]
  exact Or.inr (Or.inl ⟨hph, hbs⟩)

/-- C7: along any run of steps, the episode — the steps up to and
including the first one reporting `terminated` — contains at most one step
satisfying the blind-completion bonus condition (phase `RoundEnd` with
`blind_started` and `blind_finished` both set); the 1000.0 bonus is never
added on two distinct steps of an episode.  (In fact any bonus step is
terminal, because `RoundEnd ∧ blind_started` already terminates the
episode.) -/
theorem c7_single_bonus (cfg : EnvConfig) (s : TrackedState)
    (inputs : List (Nat × EngineOut)) :
    (∀ (cfgA : EnvConfig) (t : StepTrace),
      bonusAwarded t = true ↔
        (t.eng.result.phase = .known .RoundEnd
          ∧ (step cfgA t.pre t.action t.eng).1.blind_started = true
          ∧ (step cfgA t.pre t.action t.eng).1.blind_finished = true))
    ∧ ((episodeSteps (runEnv cfg s inputs)).filter bonusAwarded).length ≤ 1 := by
  refine ⟨?_, ?_⟩
  · intro cfgA t
    unfold bonusAwarded
    simp only [Bool.and_eq_true, beq_iff_eq, and_assoc]
    exact Iff.rfl
  induction inputs generalizing s with
  | nil => simp [runEnv, episodeSteps]
  | cons p rest ih =>
    obtain ⟨a, e⟩ := p
    show ((episodeSteps (⟨s, a, e, (step cfg s a e).2⟩ ::
        runEnv cfg (step cfg s a e).1 rest)).filter bonusAwarded).length ≤ 1
    unfold episodeSteps
    by_cases ht : (step cfg s a e).2.terminated = true
    · rw [if_pos ht]
      exact (List.length_filter_le _ _).trans (by simp)
    · rw [if_neg ht]
      have hb : bonusAwarded ⟨s, a, e, (step cfg s a e).2⟩ = false := by
        rcases Bool.eq_false_or_eq_true (bonusAwarded ⟨s, a, e, (step cfg s a e).2⟩)
          with h | h
        · exact absurd (bonusAwarded_terminated cfg s a e h) ht
        · exact h
      rw [List.filter_cons_of_neg (by simp [hb])]
      exact ih (step cfg s a e).1

/-! ### C8 — output-suppression guard -/

/-- C8 (amended): on every exit of one `_suppress_output` invocation —
normal return, failure of any acquisition operation, or an exception from
the wrapped engine call — the process-level stdout and stderr slots are
restored to the targets they had on entry, no descriptor is ever closed
twice, and an exception always propagates out of the guard (is never
swallowed); and on every exit path EXCEPT a failure of the `os.dup(2)`
save itself (line 310, which precedes the `try`, so the just-duplicated
stdout copy leaks with no recovery code in scope — contrary to the
claim's universal no-leak guarantee) no descriptor created by `os.dup`
remains open. -/
theorem c8_suppress_output (quiet : Bool) (s1 s2 dn : Nat) (ex : GuardExit) :
    (runGuard quiet s1 s2 dn ex).final.slot1 = s1
    ∧ (runGuard quiet s1 s2 dn ex).final.slot2 = s2
    ∧ (ex ≠ .dupStderrFails →
        ∀ h ∈ (runGuard quiet s1 s2 dn ex).final.handles, h.isDup = false)
    ∧ (runGuard quiet s1 s2 dn ex).final.closeLog.Nodup
    ∧ ((runGuard quiet s1 s2 dn ex).raised = true
        ↔ (ex ≠ .noFail ∧ (quiet = true ∨ ex = .bodyRaises))) := by
  cases quiet <;> cases ex <;>
    simp [runGuard, guardRecover, guardRelease, closeFd]

/-- C8 witness: on the wrapped-body-raises exit in quiet mode, the stdout
slot is restored and no duplicated descriptor stays open. -/
theorem c8_suppress_output_witness :
    (runGuard true 11 22 33 .bodyRaises).final.slot1 = 11
    ∧ (∀ h ∈ (runGuard true 11 22 33 .bodyRaises).final.handles,
        h.isDup = false) :=
  ⟨(c8_suppress_output true 11 22 33 .bodyRaises).1,
   (c8_suppress_output true 11 22 33 .bodyRaises).2.2.1 (by decide)⟩

/-- C8 counterexample: when the `os.dup(2)` save (line 310) raises — the
same descriptor-exhaustion failure class the guard survives for
`os.open(os.devnull)` — the invocation exits with the duplicated stdout
descriptor still open and never closed: a duplicated file handle is
leaked, where the claim requires that no exit path of the guard leaks
one. -/
theorem c8_suppress_output_counterexample :
    (runGuard true 11 22 33 .dupStderrFails).raised = true
    ∧ (runGuard true 11 22 33 .dupStderrFails).final.handles = [⟨0, 11, true⟩]
    ∧ (runGuard true 11 22 33 .dupStderrFails).final.closeLog = []
    ∧ ((runGuard true 11 22 33 .dupStderrFails).final.handles.all
        (fun h => !h.isDup)) = false := by
  refine ⟨rfl, rfl, rfl, rfl⟩

/-! ### C9 — info dict fields -/

/-- C9 (amended): every `info` dict returned by `step` contains all nine
documented fields — `phase`, `status`, `valid_actions` (the new
`StepResult`'s action indices, in order), `score`, `money`,
`action_mapped`, `original_action`, `mapped_action`, `finished` — but,
contrary to the claim, the `info` dict returned by `reset` contains only
`phase`, `status` and `valid_actions`; the other six keys are absent. -/
theorem c9_info_fields (cfg : EnvConfig) (s : TrackedState) (a : Nat)
    (e : EngineOut) (s0 : TrackedState) (probe : StepResult) :
    infoGet (step cfg s a e).2.info "phase" = some (.phaseVal e.result.phase)
    ∧ infoGet (step cfg s a e).2.info "status" = some (.statusVal e.result.status)
    ∧ infoGet (step cfg s a e).2.info "score"
        = some (.intVal (step cfg s a e).1.current_score)
    ∧ infoGet (step cfg s a e).2.info "money"
        = some (.intVal (step cfg s a e).1.current_money)
    ∧ (∃ b, infoGet (step cfg s a e).2.info "action_mapped" = some (.boolVal b))
    ∧ infoGet (step cfg s a e).2.info "original_action" = some (.natVal a)
    ∧ (∃ m, infoGet (step cfg s a e).2.info "mapped_action" = some (.natVal m))
    ∧ infoGet (step cfg s a e).2.info "valid_actions"
        = some (.natListVal e.result.actions)
    ∧ infoGet (step cfg s a e).2.info "finished"
        = some (.outcomeVal e.result.finished)
    ∧ infoGet (reset s0 probe).2.2 "phase" = some (.phaseVal probe.phase)
    ∧ infoGet (reset s0 probe).2.2 "status" = some (.statusVal probe.status)
    ∧ infoGet (reset s0 probe).2.2 "valid_actions"
        = some (.natListVal probe.actions)
    ∧ infoGet (reset s0 probe).2.2 "score" = none
    ∧ infoGet (reset s0 probe).2.2 "money" = none
    ∧ infoGet (reset s0 probe).2.2 "action_mapped" = none
    ∧ infoGet (reset s0 probe).2.2 "original_action" = none
    ∧ infoGet (reset s0 probe).2.2 "mapped_action" = none
    ∧ infoGet (reset s0 probe).2.2 "finished" = none :=
  ⟨rfl, rfl, rfl, rfl, ⟨_, rfl⟩, rfl, ⟨_, rfl⟩, rfl, rfl, rfl, rfl, rfl,
   rfl, rfl, rfl, rfl, rfl, rfl⟩

/-- C9 counterexample: at a concrete input, the `info` dict returned by
`reset` has no `score` key and no `action_mapped` key, where the claim
requires every `Info` returned by the upward interface to contain all of
the listed fields. -/
theorem c9_info_fields_counterexample :
    infoGet (reset initState probeBlindSelect).2.2 "score" = none
    ∧ infoGet (reset initState probeBlindSelect).2.2 "action_mapped" = none :=
  ⟨rfl, rfl⟩

end BalatroAI
